import Mathlib

/-!
Verification development for the Ai-Clinic medical intake assistant.

This file gives a shallow embedding, in Lean 4, of the deterministic parts of
the repository that the frozen claims talk about:

* `src/src/agent/services/completeness_manager.py` (data completeness scoring,
  timeout bookkeeping, skip / unclear / handoff handling),
* `src/src/agent/services/soap_data_manager.py` (meaningful-data predicate and
  emergency red-flag matching),
* `src/src/agent/services/conversation_memory.py` (question-intent hashing and
  duplicate-question tracking),
* `src/src/agent/langgraph_agent/dynamic_langgraph_agent.py` (the node graph,
  its routing function, and the evaluation / emergency nodes).

Python dictionaries are modelled as association lists, SQLAlchemy sessions as
an explicit `Db` record threaded through each operation (mutations become a
returned updated `Db`; a code path that raises before `commit` returns the
original `Db` through `Except.error`), Python floats as rationals, and
`datetime.now()` as an explicit rational timestamp parameter (seconds).
LLM calls are modelled as explicit oracle parameters of type
`Except Unit LLMResponse`: `.ok r` is a successful call whose JSON parsed to
`r`, `.error ()` is any exception caught by the surrounding `try`.
-/

namespace AiClinic

/-- A Python / JSON value as stored in the loosely typed `collected_data`
dictionaries: `None`, strings, numbers, booleans, lists and dicts. -/
inductive Value where
  | null
  | str (s : String)
  | num (q : ℚ)
  | bool (b : Bool)
  | list (l : List Value)
  | dict (l : List (String × Value))

/-- Association-list model of a Python dict with string keys. -/
abbrev AssocData := List (String × Value)

/-- Dictionary key lookup: `data[field]` / `field in data`. -/
def lookup (data : AssocData) (k : String) : Option Value :=
  (data.find? (fun p => p.1 == k)).map (fun p => p.2)

/-- Python `str.lower()`, modelled at the ASCII level: each character is
lowercased with `Char.toLower`.  Defined by structural recursion on the
character list so that it computes by kernel reduction. -/
def pyLower (s : String) : String :=
  String.mk (s.data.map Char.toLower)

/-- Python `str.strip()`: drop leading and trailing whitespace. -/
def pyStrip (s : String) : String :=
  String.mk
    (((s.data.dropWhile Char.isWhitespace).reverse.dropWhile Char.isWhitespace).reverse)

/-- The placeholder list of `CompletenessManager._field_has_meaningful_data`
(completeness_manager.py lines 209-212). -/
def cmMeaninglessResponses : List String :=
  ["unknown", "not sure", "maybe", "i don\x27t know", "n/a", "none",
   "no", "yes", "ok", "fine", "normal", "regular"]

/-- The placeholder list of `SOAPDataManager._field_has_meaningful_data`
(soap_data_manager.py lines 597-600). -/
def soapMeaninglessResponses : List String :=
  ["unknown", "not sure", "maybe", "i don\x27t know", "n/a", "none",
   "not mentioned", "skip", "skipped", "not applicable"]

/-- `CompletenessManager._field_has_meaningful_data` (completeness_manager.py
lines 193-217): the field is present, its value is not `None`, `""` or
`"null"`, not an empty list or dict, and, for strings, its lowercased stripped
form is not one of the hardcoded placeholders. -/
def cmFieldHasMeaningfulData (data : AssocData) (field : String) : Bool :=
  match lookup data field with
  | none => false
  | some v =>
    match v with
    | .null => false
    | .str s =>
      !(s == "" || s == "null" ||
        cmMeaninglessResponses.contains (pyStrip (pyLower s)))
    | .list l => !l.isEmpty
    | .dict l => !l.isEmpty
    | .num _ => true
    | .bool _ => true

/-- `SOAPDataManager._field_has_meaningful_data` (soap_data_manager.py lines
583-607): identical null / empty checks, but a different placeholder list. -/
def soapFieldHasMeaningfulData (data : AssocData) (field : String) : Bool :=
  match lookup data field with
  | none => false
  | some v =>
    match v with
    | .null => false
    | .str s =>
      !(s == "" || s == "null" ||
        soapMeaninglessResponses.contains (pyStrip (pyLower s)))
    | .list l => !l.isEmpty
    | .dict l => !l.isEmpty
    | .num _ => true
    | .bool _ => true

/-- `CompletenessManager.required_fields` (completeness_manager.py lines
50-77): the fixed category / field table; 38 fields in total. -/
def requiredFields : List (String × List String) :=
  [("chief_complaint",
     ["primary_symptom", "when_started", "what_brings_you_in"]),
   ("symptom_details",
     ["onset", "location", "duration", "character", "severity",
      "timing", "aggravating_factors", "relieving_factors"]),
   ("medical_history",
     ["past_medical_history", "current_conditions", "surgeries", "hospitalizations"]),
   ("medications",
     ["current_medications", "dosages", "over_the_counter", "supplements"]),
   ("allergies",
     ["drug_allergies", "food_allergies", "environmental_allergies", "reactions"]),
   ("social_history",
     ["smoking", "alcohol", "drugs", "occupation", "work_exposures"]),
   ("family_history",
     ["family_medical_conditions", "genetic_history"]),
   ("review_of_systems",
     ["cardiovascular", "respiratory", "gastrointestinal", "neurological",
      "skin", "genitourinary", "musculoskeletal", "psychiatric"])]

/-- `CompletenessManager.category_weights` (completeness_manager.py lines
80-89). -/
def categoryWeights : List (String × ℚ) :=
  [("chief_complaint", 25), ("symptom_details", 20), ("medical_history", 15),
   ("medications", 10), ("allergies", 10), ("social_history", 8),
   ("family_history", 7), ("review_of_systems", 5)]

/-- All 38 required field names, in table order. -/
def allRequiredFields : List String :=
  (requiredFields.map Prod.snd).flatten

/-- Per-category score entry produced by `evaluate_data_completeness`. -/
structure CategoryScore where
  collected : Nat
  total : Nat
  percentage : ℚ
  complete : Bool

/-- The per-category evaluation loop of `evaluate_data_completeness`
(completeness_manager.py lines 117-131). -/
def categoryScores (data : AssocData) : List (String × CategoryScore) :=
  requiredFields.map (fun cf =>
    let collected : Nat := (cf.2.filter (fun f => cmFieldHasMeaningfulData data f)).length
    let pct : ℚ := ((collected : ℚ) / (cf.2.length : ℚ)) * 100
    (cf.1, { collected := collected, total := cf.2.length,
             percentage := pct, complete := decide (pct ≥ 70) }))

/-- `total_fields_collected`: the number of required fields with meaningful
data, summed over the categories. -/
def totalFieldsCollected (data : AssocData) : Nat :=
  (requiredFields.map (fun cf =>
    (cf.2.filter (fun f => cmFieldHasMeaningfulData data f)).length)).sum

/-- `total_possible_fields`: the size of the field table. -/
def totalPossibleFields : Nat :=
  (requiredFields.map (fun cf => cf.2.length)).sum

/-- Row of the `conversations` table (config/models.py lines 109-177),
restricted to the columns the claims exercise.  Timestamps are rational
seconds; `status` holds the `SessionStatus` enum value string. -/
structure Conversation where
  id : Nat
  sessionId : String
  status : String
  minDataThresholdMet : Bool
  canBeSaved : Bool
  dataCompletenessLevel : String
  completionScore : ℚ
  lastActivity : ℚ
  timeoutWarnings : Nat
  lastTimeoutWarning : Option ℚ
  idleTimeoutMinutes : ℚ
  sessionTimeoutMinutes : ℚ
  skippedQuestions : List (String × ℚ × String)
  unclearResponses : List (String × String × ℚ)
  requestedHumanHandoff : Bool
  handoffReason : Option String

/-- Row of the `question_tracking` table (config/models.py lines 351-392),
restricted to the columns the claims exercise. -/
structure QuestionTracking where
  conversationId : Nat
  questionId : String
  questionText : String
  questionHash : String
  questionCategory : String
  status : String
  attemptCount : Nat
  responseClarity : Option String
  needsFollowup : Bool
  skipReason : Option String
  createdAt : ℚ
  lastAskedAt : Option ℚ
  answeredAt : Option ℚ

/-- Row of the `data_completeness_checks` table (config/models.py lines
395-429). -/
structure DataCompletenessCheck where
  conversationId : Nat
  chiefComplaintComplete : Bool
  symptomDetailsComplete : Bool
  medicalHistoryComplete : Bool
  medicationsComplete : Bool
  allergiesComplete : Bool
  socialHistoryComplete : Bool
  familyHistoryComplete : Bool
  reviewOfSystemsComplete : Bool
  minFieldsRequired : Nat
  minFieldsCollected : Nat
  pointsEarned : Int
  completionPercentage : ℚ
  meetsStorageThreshold : Bool
  canCompleteSession : Bool
  lastCalculated : Option ℚ

/-- Row of the `timeout_events` table (config/models.py lines 432-453). -/
structure TimeoutEvent where
  conversationId : Nat
  eventType : String
  timeoutDuration : Int
  warningMessage : Option String

/-- The committed database state threaded through each service operation. -/
structure Db where
  conversations : List Conversation
  questionTracking : List QuestionTracking
  completenessChecks : List DataCompletenessCheck
  timeoutEvents : List TimeoutEvent

/-- Replace the first list element satisfying `p` by its image under `f`;
models mutating the row returned by `query(...).first()`. -/
def updateFirst (p : α → Bool) (f : α → α) : List α → List α
  | [] => []
  | x :: xs => if p x then f x :: xs else x :: updateFirst p f xs

/-- Either the error dictionary a service returns when the conversation id is
unknown, or the normal result dictionary. -/
inductive OpResult (α : Type) where
  | errorDict (msg : String)
  | ok (r : α)

/-- The `DataCompletenessLevel` enum as actually defined in config/models.py
lines 41-47: its only members are MINIMAL, BASIC, ADEQUATE, COMPREHENSIVE and
COMPLETE. -/
inductive DataCompletenessLevel where
  | minimal
  | basic
  | adequate
  | comprehensive
  | complete

/-- The `.value` string of each `DataCompletenessLevel` member. -/
def DataCompletenessLevel.value : DataCompletenessLevel → String
  | .minimal => "MINIMAL"
  | .basic => "BASIC"
  | .adequate => "ADEQUATE"
  | .comprehensive => "COMPREHENSIVE"
  | .complete => "COMPLETE"

/-- `CompletenessThreshold.MINIMUM_FOR_STORAGE` (completeness_manager.py
line 38). -/
def CompletenessThreshold.minimumForStorage : Nat := 8

/-- `CompletenessThreshold.SUBSTANTIAL_COMPLETION` (completeness_manager.py
line 39). -/
def CompletenessThreshold.substantialCompletion : Nat := 15

/-- `CompletenessThreshold.COMPREHENSIVE_COMPLETION` (completeness_manager.py
line 40). -/
def CompletenessThreshold.comprehensiveCompletion : Nat := 25

/-- The tier selection of `evaluate_data_completeness` (completeness_manager.py
lines 156-163).  The source reads `DataCompletenessLevel.SUBSTANTIAL` and
`DataCompletenessLevel.PARTIAL`, but the enum in config/models.py defines no
such members, so in Python those two branches raise `AttributeError`; the
raise is modelled as `Except.error`. -/
def completenessLevelOf (totalFieldsCollected : Nat) : Except String DataCompletenessLevel :=
  if totalFieldsCollected ≥ CompletenessThreshold.comprehensiveCompletion then
    .ok .comprehensive
  else if totalFieldsCollected ≥ CompletenessThreshold.substantialCompletion then
    .error "AttributeError: DataCompletenessLevel has no member SUBSTANTIAL"
  else if totalFieldsCollected ≥ CompletenessThreshold.minimumForStorage then
    .error "AttributeError: DataCompletenessLevel has no member PARTIAL"
  else
    .ok .minimal

/-- Category score lookup `category_scores[category]`. -/
def scoreOf (scores : List (String × CategoryScore)) (cat : String) : CategoryScore :=
  ((scores.find? (fun p => p.1 == cat)).map (fun p => p.2)).getD
    { collected := 0, total := 0, percentage := 0, complete := false }

/-- Field list of one category, `self.required_fields[category]`. -/
def fieldsOf (cat : String) : List String :=
  ((requiredFields.find? (fun p => p.1 == cat)).map (fun p => p.2)).getD []

/-- Weight lookup `self.category_weights.get(category, 5)`. -/
def weightOf (cat : String) : ℚ :=
  ((categoryWeights.find? (fun p => p.1 == cat)).map (fun p => p.2)).getD 5

/-- `CompletenessManager._identify_missing_critical_areas`
(completeness_manager.py lines 219-230). -/
def identifyMissingCriticalAreas (scores : List (String × CategoryScore)) : List String :=
  ["chief_complaint", "symptom_details", "medical_history"].filter
    (fun c => !(scoreOf scores c).complete)

/-- Entry of the `next_priority_questions` list. -/
structure PriorityQuestion where
  category : String
  missingFields : List String
  priority : String

/-- `CompletenessManager._get_next_priority_questions`
(completeness_manager.py lines 232-251). -/
def getNextPriorityQuestions (scores : List (String × CategoryScore))
    (data : AssocData) : List PriorityQuestion :=
  ((["chief_complaint", "symptom_details", "medical_history", "medications",
     "allergies"].filterMap (fun cat =>
      if (scoreOf scores cat).complete then none
      else
        let missing := (fieldsOf cat).filter (fun f => !cmFieldHasMeaningfulData data f)
        if missing.isEmpty then none
        else some { category := cat, missingFields := missing.take 2,
                    priority := if cat == "chief_complaint" || cat == "symptom_details"
                                then "high" else "medium" })).take 3)

/-- The result dictionary of a successful `evaluate_data_completeness` call
(completeness_manager.py lines 181-191). -/
structure CompletenessResult where
  completenessLevel : String
  completionPercentage : ℚ
  totalFieldsCollected : Nat
  totalPossibleFields : Nat
  meetsStorageThreshold : Bool
  canCompleteSession : Bool
  categoryScores : List (String × CategoryScore)
  missingCriticalAreas : List String
  nextPriorityQuestions : List PriorityQuestion

/-- The field updates `evaluate_data_completeness` performs on the
completeness-check row (completeness_manager.py lines 134-171). -/
def updateCheckFields (scores : List (String × CategoryScore)) (total : Nat)
    (completionPercentage : ℚ) (meets canComplete : Bool) (now : ℚ)
    (c : DataCompletenessCheck) : DataCompletenessCheck :=
  { c with
    chiefComplaintComplete := (scoreOf scores "chief_complaint").complete
    symptomDetailsComplete := (scoreOf scores "symptom_details").complete
    medicalHistoryComplete := (scoreOf scores "medical_history").complete
    medicationsComplete := (scoreOf scores "medications").complete
    allergiesComplete := (scoreOf scores "allergies").complete
    socialHistoryComplete := (scoreOf scores "social_history").complete
    familyHistoryComplete := (scoreOf scores "family_history").complete
    reviewOfSystemsComplete := (scoreOf scores "review_of_systems").complete
    minFieldsCollected := total
    completionPercentage := completionPercentage
    pointsEarned := ⌊completionPercentage⌋
    meetsStorageThreshold := meets
    canCompleteSession := canComplete
    lastCalculated := some now }

/-- A freshly created `DataCompletenessCheck` row (completeness_manager.py
lines 105-110): only `conversation_id` and `min_fields_required` are set, the
rest are the column defaults of config/models.py. -/
def freshCheck (conversationId : Nat) : DataCompletenessCheck :=
  { conversationId := conversationId
    chiefComplaintComplete := false, symptomDetailsComplete := false
    medicalHistoryComplete := false, medicationsComplete := false
    allergiesComplete := false, socialHistoryComplete := false
    familyHistoryComplete := false, reviewOfSystemsComplete := false
    minFieldsRequired := CompletenessThreshold.minimumForStorage
    minFieldsCollected := 0, pointsEarned := 0, completionPercentage := 0
    meetsStorageThreshold := false, canCompleteSession := false
    lastCalculated := none }

/-- `CompletenessManager.evaluate_data_completeness` (completeness_manager.py
lines 91-191).  `now` is `datetime.now()` in seconds.  An unknown conversation
id returns the error dictionary with the database untouched; the missing enum
members make the call raise (`Except.error`) whenever the collected-field
count falls in the SUBSTANTIAL or PARTIAL range, in which case nothing is
committed. -/
def evaluateDataCompleteness (db : Db) (conversationId : Nat) (data : AssocData)
    (now : ℚ) : Except String (OpResult CompletenessResult × Db) :=
  match db.conversations.find? (fun c => c.id == conversationId) with
  | none => .ok (.errorDict "Conversation not found", db)
  | some _ =>
    let hasCheck := (db.completenessChecks.find?
      (fun c => c.conversationId == conversationId)).isSome
    let scores := categoryScores data
    let total := totalFieldsCollected data
    let weightedScore : ℚ :=
      (scores.map (fun sc => (sc.2.percentage / 100) * weightOf sc.1)).sum
    let completionPercentage : ℚ :=
      weightedScore / ((categoryWeights.map Prod.snd).sum) * 100
    match completenessLevelOf total with
    | .error e => .error e
    | .ok level =>
      let meets := decide (total ≥ CompletenessThreshold.minimumForStorage)
      let canComplete := decide (total ≥ CompletenessThreshold.substantialCompletion)
      let upd := updateCheckFields scores total completionPercentage meets canComplete now
      let db' : Db :=
        { db with
          completenessChecks :=
            if hasCheck then
              updateFirst (fun c => c.conversationId == conversationId) upd
                db.completenessChecks
            else
              db.completenessChecks ++ [upd (freshCheck conversationId)]
          conversations :=
            updateFirst (fun c => c.id == conversationId)
              (fun c => { c with
                dataCompletenessLevel := level.value
                minDataThresholdMet := meets
                canBeSaved := meets
                completionScore := completionPercentage }) db.conversations }
      .ok (.ok
        { completenessLevel := level.value
          completionPercentage := completionPercentage
          totalFieldsCollected := total
          totalPossibleFields := totalPossibleFields
          meetsStorageThreshold := meets
          canCompleteSession := canComplete
          categoryScores := scores
          missingCriticalAreas := identifyMissingCriticalAreas scores
          nextPriorityQuestions := getNextPriorityQuestions scores data }, db')

/-- Python `int()` truncation toward zero on a rational. -/
def pyInt (q : ℚ) : Int :=
  if 0 ≤ q then ⌊q⌋ else -⌊-q⌋

/-- Result dictionary of `handle_skip_request` (completeness_manager.py lines
286-290). -/
structure SkipResult where
  skipped : Bool
  message : String
  canContinue : Bool

/-- `CompletenessManager.handle_skip_request` (completeness_manager.py lines
253-290). -/
def handleSkipRequest (db : Db) (conversationId : Nat) (questionId : String)
    (skipReason : String) (now : ℚ) : OpResult SkipResult × Db :=
  match db.conversations.find? (fun c => c.id == conversationId) with
  | none => (.errorDict "Conversation not found", db)
  | some _ =>
    let db' : Db :=
      { db with
        conversations :=
          updateFirst (fun c => c.id == conversationId)
            (fun c => { c with
              skippedQuestions := c.skippedQuestions ++ [(questionId, now, skipReason)] })
            db.conversations
        questionTracking :=
          updateFirst
            (fun q => q.conversationId == conversationId && q.questionId == questionId)
            (fun q => { q with
              status := "SKIPPED"
              skipReason := some skipReason
              answeredAt := some now })
            db.questionTracking }
    (.ok { skipped := true
           message := "Question skipped. You can return to it later if needed."
           canContinue := true }, db')

/-- Result dictionary of `handle_unclear_response` (completeness_manager.py
lines 335-340). -/
structure UnclearResult where
  needsClarification : Bool
  clarificationPrompt : String
  canSkip : Bool
  skipMessage : String

/-- `CompletenessManager.handle_unclear_response` (completeness_manager.py
lines 292-340). -/
def handleUnclearResponse (db : Db) (conversationId : Nat) (questionId : String)
    (userResponse : String) (now : ℚ) : OpResult UnclearResult × Db :=
  match db.conversations.find? (fun c => c.id == conversationId) with
  | none => (.errorDict "Conversation not found", db)
  | some _ =>
    let db' : Db :=
      { db with
        conversations :=
          updateFirst (fun c => c.id == conversationId)
            (fun c => { c with
              unclearResponses := c.unclearResponses ++ [(questionId, userResponse, now)] })
            db.conversations
        questionTracking :=
          updateFirst
            (fun q => q.conversationId == conversationId && q.questionId == questionId)
            (fun q => { q with
              status := "UNCLEAR"
              responseClarity := some "vague"
              needsFollowup := true
              attemptCount := q.attemptCount + 1 })
            db.questionTracking }
    (.ok { needsClarification := true
           clarificationPrompt := "Could you be more specific about that?"
           canSkip := true
           skipMessage := "If you\x27re not sure, you can say \x27skip\x27 and we\x27ll move on." },
     db')

/-- The four result dictionaries `check_timeout_status` can return, plus the
unknown-conversation error dictionary. -/
inductive TimeoutResult where
  | errorDict (msg : String)
  | sessionTimeout (message : String) (canResume sessionSaved : Bool)
  | idleWarning (message : String) (warningCount : Nat)
  | approachingTimeout (gentleNudge : String) (minutesUntilWarning : ℚ)
  | active

/-- The `status` string of each `check_timeout_status` result dictionary. -/
def TimeoutResult.statusString : TimeoutResult → String
  | .errorDict _ => "error"
  | .sessionTimeout _ _ _ => "timeout"
  | .idleWarning _ _ => "idle_warning"
  | .approachingTimeout _ _ => "approaching_timeout"
  | .active => "active"

/-- Message returned by `_handle_session_timeout` when the minimum-data
threshold was met (completeness_manager.py lines 383-385). -/
def sessionPausedMessage : String :=
  "Your session has been paused due to inactivity, but don\x27t worry - I\x27ve saved all the information you\x27ve shared. You can return anytime to continue where you left off."

/-- Message returned by `_handle_session_timeout` when the minimum-data
threshold was not met (completeness_manager.py lines 389-390). -/
def sessionLostMessage : String :=
  "Your session has timed out. Since we didn\x27t collect enough information to save your progress, you\x27ll need to start over when you return."

/-- `CompletenessManager._handle_session_timeout` (completeness_manager.py
lines 368-399): records a `TimeoutEvent` of type `"timeout"`, then pauses the
session (status PAUSED) when `min_data_threshold_met` holds and discards it
(status TIMEOUT) otherwise. -/
def handleSessionTimeout (db : Db) (conv : Conversation) (now : ℚ) :
    TimeoutResult × Db :=
  let event : TimeoutEvent :=
    { conversationId := conv.id
      eventType := "timeout"
      timeoutDuration := pyInt (now - conv.lastActivity)
      warningMessage := some "Session timed out due to inactivity" }
  let newStatus := if conv.minDataThresholdMet then "PAUSED" else "TIMEOUT"
  let message := if conv.minDataThresholdMet then sessionPausedMessage else sessionLostMessage
  let db' : Db :=
    { db with
      timeoutEvents := db.timeoutEvents ++ [event]
      conversations :=
        updateFirst (fun c => c.id == conv.id)
          (fun c => { c with status := newStatus }) db.conversations }
  (.sessionTimeout message conv.minDataThresholdMet conv.minDataThresholdMet, db')

/-- First idle warning message (completeness_manager.py lines 416-417). -/
def idleFirstWarningMessage : String :=
  "Still with me? Let me know if you\x27d like to continue or take a break. I can save your progress if you need to step away."

/-- Later idle warning message (completeness_manager.py lines 419-420). -/
def idleLaterWarningMessage : String :=
  "I\x27ll pause our conversation for now to save your progress. You can come back anytime to continue where we left off."

/-- `CompletenessManager._handle_idle_timeout` (completeness_manager.py lines
401-428). -/
def handleIdleTimeout (db : Db) (conv : Conversation) (idleMinutes : ℚ)
    (now : ℚ) : TimeoutResult × Db :=
  let warnings := conv.timeoutWarnings + 1
  let event : TimeoutEvent :=
    { conversationId := conv.id
      eventType := if warnings == 1 then "warning" else "final_warning"
      timeoutDuration := pyInt (idleMinutes * 60)
      warningMessage := some "Idle timeout warning sent" }
  let message := if warnings == 1 then idleFirstWarningMessage else idleLaterWarningMessage
  let db' : Db :=
    { db with
      timeoutEvents := db.timeoutEvents ++ [event]
      conversations :=
        updateFirst (fun c => c.id == conv.id)
          (fun c => { c with
            timeoutWarnings := warnings
            lastTimeoutWarning := some now }) db.conversations }
  (.idleWarning message warnings, db')

/-- `CompletenessManager._handle_approaching_timeout` (completeness_manager.py
lines 430-436); reads state only. -/
def handleApproachingTimeout (conv : Conversation) (idleMinutes : ℚ) :
    TimeoutResult :=
  .approachingTimeout "How are you doing? Ready for the next question?"
    (conv.idleTimeoutMinutes - idleMinutes)

/-- `CompletenessManager.check_timeout_status` (completeness_manager.py lines
342-366): compares elapsed idle minutes against the session timeout, the idle
timeout, and 0.7 times the idle timeout, in that order. -/
def checkTimeoutStatus (db : Db) (conversationId : Nat) (now : ℚ) :
    TimeoutResult × Db :=
  match db.conversations.find? (fun c => c.id == conversationId) with
  | none => (.errorDict "Conversation not found", db)
  | some conv =>
    let idleMinutes := (now - conv.lastActivity) / 60
    if idleMinutes ≥ conv.sessionTimeoutMinutes then
      handleSessionTimeout db conv now
    else if idleMinutes ≥ conv.idleTimeoutMinutes then
      handleIdleTimeout db conv idleMinutes now
    else if idleMinutes ≥ conv.idleTimeoutMinutes * (7 / 10 : ℚ) then
      (handleApproachingTimeout conv idleMinutes, db)
    else
      (.active, db)

/-- Result dictionary of `request_human_handoff` (completeness_manager.py
lines 464-469). -/
structure HandoffResult where
  handoffRequested : Bool
  message : String
  progressSaved : Bool
  nextSteps : String

/-- Handoff message when progress was saved (completeness_manager.py lines
453-456). -/
def handoffSavedMessage : String :=
  "I understand you\x27d prefer to speak with a human. I\x27ve saved all the information you\x27ve shared so far. You can discuss this further with your doctor during your appointment, or if this is urgent, please contact your healthcare provider directly."

/-- Handoff message when progress was not saved (completeness_manager.py lines
458-460). -/
def handoffUnsavedMessage : String :=
  "I understand you\x27d prefer to speak with a human. If you\x27re unsure or uncomfortable continuing now, we can stop here. You can always discuss your concerns directly with your doctor during your appointment."

/-- `CompletenessManager.request_human_handoff` (completeness_manager.py lines
438-469). -/
def requestHumanHandoff (db : Db) (conversationId : Nat) (reason : String) :
    OpResult HandoffResult × Db :=
  match db.conversations.find? (fun c => c.id == conversationId) with
  | none => (.errorDict "Conversation not found", db)
  | some conv =>
    let db' : Db :=
      { db with
        conversations :=
          updateFirst (fun c => c.id == conversationId)
            (fun c =>
              let c := { c with
                requestedHumanHandoff := true
                handoffReason := some reason }
              if conv.minDataThresholdMet then { c with status := "PAUSED" } else c)
            db.conversations }
    let message := if conv.minDataThresholdMet then handoffSavedMessage else handoffUnsavedMessage
    (.ok { handoffRequested := true
           message := message
           progressSaved := conv.minDataThresholdMet
           nextSteps := "Contact your healthcare provider or continue during your appointment" },
     db')

/-- `SOAPDataManager._initialize_emergency_flags` (soap_data_manager.py lines
515-522): the fixed 13-phrase red-flag list. -/
def emergencyFlags : List String :=
  ["chest pain", "severe shortness of breath", "slurred speech",
   "vision loss", "fainting", "sudden weakness", "confusion",
   "high fever", "severe headache", "difficulty breathing",
   "loss of consciousness", "severe abdominal pain", "heavy bleeding"]

/-- The `critical_flags` list of `check_emergency_flags`
(soap_data_manager.py line 700). -/
def criticalFlags : List String :=
  ["chest pain", "difficulty breathing", "loss of consciousness", "severe bleeding"]

/-- The `high_flags` list of `check_emergency_flags`
(soap_data_manager.py line 701). -/
def highFlags : List String :=
  ["severe shortness of breath", "slurred speech", "vision loss", "fainting"]

/-- Python substring containment `needle in haystack` on strings. -/
def strContains (haystack needle : String) : Bool :=
  decide (needle.data <:+: haystack.data)

/-- Emergency message for critical or high levels (soap_data_manager.py lines
721-726). -/
def emergencySevereMessage : String :=
  "⚠️ Your symptoms may be serious. Please call emergency services or go to the ER immediately. If this is a life-threatening emergency, call 911 now."

/-- Emergency message for the moderate level (soap_data_manager.py lines
727-731). -/
def emergencyModerateMessage : String :=
  "🏥 Based on your symptoms, I recommend seeking urgent medical care. Please contact your healthcare provider immediately or visit an urgent care center."

/-- `SOAPDataManager._generate_emergency_message` (soap_data_manager.py lines
719-732); the detected-flag list parameter is accepted and ignored, exactly as
in the source. -/
def generateEmergencyMessage (emergencyLevel : String)
    (_detectedFlags : List String) : Option String :=
  if emergencyLevel == "critical" || emergencyLevel == "high" then
    some emergencySevereMessage
  else if emergencyLevel == "moderate" then
    some emergencyModerateMessage
  else
    none

/-- The dictionary returned by `check_emergency_flags` (soap_data_manager.py
lines 711-717). -/
structure EmergencyCheck where
  emergencyLevel : String
  detectedFlags : List String
  requiresImmediateAction : Bool
  emergencyMessage : Option String

/-- `SOAPDataManager.check_emergency_flags` (soap_data_manager.py lines
685-717); the `collected_data` parameter is accepted and ignored, exactly as
in the source. -/
def checkEmergencyFlags (userMessage : String) (_collectedData : AssocData) :
    EmergencyCheck :=
  let messageLower := pyLower userMessage
  let detected := emergencyFlags.filter (fun f => strContains messageLower f)
  let levelAction : String × Bool :=
    if !detected.isEmpty then
      if criticalFlags.any (fun f => detected.contains f) then ("critical", true)
      else if highFlags.any (fun f => detected.contains f) then ("high", true)
      else ("moderate", false)
    else ("none", false)
  { emergencyLevel := levelAction.1
    detectedFlags := detected
    requiresImmediateAction := levelAction.2
    emergencyMessage := generateEmergencyMessage levelAction.1 detected }

/-! ### MD5, as called by `hashlib.md5(...).hexdigest()` -/

/-- 2 to the 32nd, the word modulus of MD5. -/
def w32 : Nat := 4294967296

/-- Addition modulo 2^32. -/
def add32 (a b : Nat) : Nat := (a + b) % w32

/-- Bitwise complement on 32-bit words. -/
def not32 (a : Nat) : Nat := 4294967295 - a % w32

/-- Left rotation of a 32-bit word. -/
def leftrot32 (x n : Nat) : Nat := ((x <<< n) ||| (x >>> (32 - n))) % w32

/-- The 64 MD5 sine-derived constants `K`. -/
def md5K : List Nat :=
  [0xd76aa478, 0xe8c7b756, 0x242070db, 0xc1bdceee,
   0xf57c0faf, 0x4787c62a, 0xa8304613, 0xfd469501,
   0x698098d8, 0x8b44f7af, 0xffff5bb1, 0x895cd7be,
   0x6b901122, 0xfd987193, 0xa679438e, 0x49b40821,
   0xf61e2562, 0xc040b340, 0x265e5a51, 0xe9b6c7aa,
   0xd62f105d, 0x02441453, 0xd8a1e681, 0xe7d3fbc8,
   0x21e1cde6, 0xc33707d6, 0xf4d50d87, 0x455a14ed,
   0xa9e3e905, 0xfcefa3f8, 0x676f02d9, 0x8d2a4c8a,
   0xfffa3942, 0x8771f681, 0x6d9d6122, 0xfde5380c,
   0xa4beea44, 0x4bdecfa9, 0xf6bb4b60, 0xbebfbc70,
   0x289b7ec6, 0xeaa127fa, 0xd4ef3085, 0x04881d05,
   0xd9d4d039, 0xe6db99e5, 0x1fa27cf8, 0xc4ac5665,
   0xf4292244, 0x432aff97, 0xab9423a7, 0xfc93a039,
   0x655b59c3, 0x8f0ccc92, 0xffeff47d, 0x85845dd1,
   0x6fa87e4f, 0xfe2ce6e0, 0xa3014314, 0x4e0811a1,
   0xf7537e82, 0xbd3af235, 0x2ad7d2bb, 0xeb86d391]

/-- The 64 MD5 per-round left-rotation amounts `s`. -/
def md5S : List Nat :=
  [7, 12, 17, 22, 7, 12, 17, 22, 7, 12, 17, 22, 7, 12, 17, 22,
   5, 9, 14, 20, 5, 9, 14, 20, 5, 9, 14, 20, 5, 9, 14, 20,
   4, 11, 16, 23, 4, 11, 16, 23, 4, 11, 16, 23, 4, 11, 16, 23,
   6, 10, 15, 21, 6, 10, 15, 21, 6, 10, 15, 21, 6, 10, 15, 21]

/-- Group a little-endian byte list into 32-bit words. -/
def bytesToWords : List Nat → List Nat
  | a :: b :: c :: d :: rest =>
    (a + 256 * b + 65536 * c + 16777216 * d) :: bytesToWords rest
  | _ => []

/-- The `n` little-endian bytes of `x`. -/
def toLEBytes : Nat → Nat → List Nat
  | 0, _ => []
  | n + 1, x => (x % 256) :: toLEBytes n (x / 256)

/-- MD5 padding: a 0x80 byte, zeros to 56 mod 64, and the 64-bit little-endian
bit length. -/
def md5Pad (msg : List Nat) : List Nat :=
  msg ++ [0x80] ++ List.replicate ((119 - msg.length % 64) % 64) 0 ++
    toLEBytes 8 ((msg.length * 8) % (2 ^ 64))

/-- Split a byte list into 64-byte chunks. -/
def chunks64 : List Nat → List (List Nat)
  | [] => []
  | x :: xs => ((x :: xs).take 64) :: chunks64 ((x :: xs).drop 64)
termination_by l => l.length
decreasing_by simp [List.drop]; omega

/-- One of the 64 MD5 rounds, acting on the running `(a, b, c, d)` state with
the 16 message words `M`. -/
def md5Round (M : List Nat) (st : Nat × Nat × Nat × Nat) (i : Nat) :
    Nat × Nat × Nat × Nat :=
  let a := st.1
  let b := st.2.1
  let c := st.2.2.1
  let d := st.2.2.2
  let fg : Nat × Nat :=
    if i < 16 then ((b &&& c) ||| (not32 b &&& d), i)
    else if i < 32 then ((d &&& b) ||| (not32 d &&& c), (5 * i + 1) % 16)
    else if i < 48 then (b ^^^ c ^^^ d, (3 * i + 5) % 16)
    else (c ^^^ (b ||| not32 d), (7 * i) % 16)
  let f := (fg.1 + a + md5K.getD i 0 + M.getD fg.2 0) % w32
  (d, add32 b (leftrot32 f (md5S.getD i 0)), b, c)

/-- Process one 64-byte chunk, updating the MD5 state. -/
def md5ProcessChunk (st : Nat × Nat × Nat × Nat) (chunk : List Nat) :
    Nat × Nat × Nat × Nat :=
  let M := bytesToWords chunk
  let r := (List.range 64).foldl (md5Round M) st
  (add32 st.1 r.1, add32 st.2.1 r.2.1, add32 st.2.2.1 r.2.2.1,
   add32 st.2.2.2 r.2.2.2)

/-- Lowercase hexadecimal digit. -/
def hexDigitChar (n : Nat) : Char :=
  if n < 10 then Char.ofNat (48 + n) else Char.ofNat (87 + n)

/-- Two lowercase hex digits of a byte. -/
def byteToHex (b : Nat) : String :=
  String.mk [hexDigitChar (b / 16), hexDigitChar (b % 16)]

/-- Hex rendering of a 32-bit word, little-endian byte order as in the MD5
digest. -/
def wordToLEHex (w : Nat) : String :=
  String.join ((toLEBytes 4 w).map byteToHex)

/-- UTF-8 encoding of one character, as Python `str.encode()` produces. -/
def utf8EncodeChar (c : Char) : List Nat :=
  let n := c.toNat
  if n < 0x80 then [n]
  else if n < 0x800 then
    [0xC0 ||| (n >>> 6), 0x80 ||| (n &&& 0x3F)]
  else if n < 0x10000 then
    [0xE0 ||| (n >>> 12), 0x80 ||| ((n >>> 6) &&& 0x3F), 0x80 ||| (n &&& 0x3F)]
  else
    [0xF0 ||| (n >>> 18), 0x80 ||| ((n >>> 12) &&& 0x3F),
     0x80 ||| ((n >>> 6) &&& 0x3F), 0x80 ||| (n &&& 0x3F)]

/-- `hashlib.md5(s.encode()).hexdigest()`: the 32-character lowercase hex MD5
digest of the UTF-8 encoding of `s`. -/
def md5hex (s : String) : String :=
  let msg := (s.data.map utf8EncodeChar).flatten
  let padded := md5Pad msg
  let r := (chunks64 padded).foldl md5ProcessChunk
    (0x67452301, 0xefcdab89, 0x98badcfe, 0x10325476)
  wordToLEHex r.1 ++ wordToLEHex r.2.1 ++ wordToLEHex r.2.2.1 ++ wordToLEHex r.2.2.2

/-! ### ConversationMemory: question-intent hashing and duplicate tracking -/

/-- The stop-word list of `_hash_question_intent` (conversation_memory.py
line 328). -/
def removeWords : List String :=
  ["what", "when", "where", "how", "can", "you", "tell", "me", "about",
   "the", "is", "are", "do", "does"]

/-- Helper for `pySplit`: walk the characters, accumulating the current word
reversed. -/
def pySplitAux : List Char → List Char → List String
  | [], acc => if acc.isEmpty then [] else [String.mk acc.reverse]
  | c :: cs, acc =>
    if c.isWhitespace then
      if acc.isEmpty then pySplitAux cs []
      else String.mk acc.reverse :: pySplitAux cs []
    else pySplitAux cs (c :: acc)

/-- Python `str.split()` with no argument: split on whitespace runs,
discarding empty pieces. -/
def pySplit (s : String) : List String :=
  pySplitAux s.data []

/-- The meaningful words of a question: lowercase, split on whitespace, drop
the stop words (conversation_memory.py lines 325-329). -/
def intentWords (questionText : String) : List String :=
  (pySplit (pyLower questionText)).filter (fun w => !(removeWords.contains w))

/-- Sort a list of strings as Python `sorted` does (lexicographic by code
point). -/
def sortStrings (l : List String) : List String :=
  l.mergeSort (fun a b => decide (a ≤ b))

/-- The `intent_string` of `_hash_question_intent` (conversation_memory.py
line 332): the remaining meaningful words, sorted and joined with spaces. -/
def intentString (questionText : String) : String :=
  String.intercalate " " (sortStrings (intentWords questionText))

/-- `ConversationMemory._hash_question_intent` (conversation_memory.py lines
322-333): the first 8 hex digits of the MD5 of the intent string. -/
def hashQuestionIntent (questionText : String) : String :=
  ((md5hex (intentString questionText)).data.take 8).asString

/-- Python `a or b` for an optional string `a`: `b` when `a` is `None` or
empty (falsy). -/
def pyOrString (a : Option String) (b : String) : String :=
  match a with
  | none => b
  | some v => if v == "" then b else v

/-- The two result dictionaries `track_question_asked` can return
(conversation_memory.py lines 169-175 and 193-198): the duplicate branch
reports `already_asked = True` with rephrase bookkeeping, the fresh branch
reports `already_asked = False`, `attempt_count = 1` and `tracked = True`. -/
inductive TrackOutcome where
  | duplicate (questionId : String) (attemptCount : Nat)
      (shouldRephrase alternativeNeeded : Bool)
  | fresh (questionId : String)

/-- The `already_asked` field of a `track_question_asked` result. -/
def TrackOutcome.alreadyAsked : TrackOutcome → Bool
  | .duplicate _ _ _ _ => true
  | .fresh _ => false

/-- The `attempt_count` field of a `track_question_asked` result. -/
def TrackOutcome.attemptCount : TrackOutcome → Nat
  | .duplicate _ n _ _ => n
  | .fresh _ => 1

/-- `ConversationMemory.track_question_asked` (conversation_memory.py lines
145-198).  `timeStr` models `datetime.now().strftime` of `now` as used in the
generated question id. -/
def trackQuestionAsked (db : Db) (sessionId questionText category : String)
    (questionId : Option String) (now : ℚ) (timeStr : String) :
    OpResult TrackOutcome × Db :=
  match db.conversations.find? (fun c => c.sessionId == sessionId) with
  | none => (.errorDict "Conversation not found", db)
  | some conv =>
    let questionHash := hashQuestionIntent questionText
    let sameHash := fun (q : QuestionTracking) =>
      q.conversationId == conv.id && q.questionHash == questionHash
    match db.questionTracking.find? sameHash with
    | some existing =>
      let db' : Db :=
        { db with
          questionTracking :=
            updateFirst sameHash
              (fun q => { q with
                attemptCount := q.attemptCount + 1
                lastAskedAt := some now })
              db.questionTracking }
      (.ok (.duplicate existing.questionId (existing.attemptCount + 1)
          (decide (existing.attemptCount + 1 > 1))
          (decide (existing.attemptCount + 1 > 2))), db')
    | none =>
      let newRecord : QuestionTracking :=
        { conversationId := conv.id
          questionId := pyOrString questionId ("q_" ++ category ++ "_" ++ timeStr)
          questionText := questionText
          questionHash := questionHash
          questionCategory := category
          status := "asked"
          attemptCount := 1
          responseClarity := none
          needsFollowup := false
          skipReason := none
          createdAt := now
          lastAskedAt := some now
          answeredAt := none }
      (.ok (.fresh newRecord.questionId),
       { db with questionTracking := db.questionTracking ++ [newRecord] })

/-- At most one `QuestionTracking` row per conversation and question-intent
hash. -/
def UniqueHashInvariant (db : Db) : Prop :=
  ∀ cid h,
    (db.questionTracking.filter
      (fun q => q.conversationId == cid && q.questionHash == h)).length ≤ 1

/-! ### The LangGraph agent (dynamic_langgraph_agent.py) -/

/-- Python truthiness of a JSON value. -/
def pyTruthy : Value → Bool
  | .null => false
  | .str s => !(s == "")
  | .num q => !(q == 0)
  | .bool b => b
  | .list l => !l.isEmpty
  | .dict l => !l.isEmpty

/-- Python `v == s` for a JSON value against a string literal. -/
def valueEqStr (v : Value) (s : String) : Bool :=
  match v with
  | .str t => t == s
  | _ => false

/-- `d[k] = v` on a dict: overwrite an existing key in place, else append. -/
def setKey (d : AssocData) (k : String) (v : Value) : AssocData :=
  if (d.find? (fun p => p.1 == k)).isSome then
    updateFirst (fun p => p.1 == k) (fun p => (p.1, v)) d
  else
    d ++ [(k, v)]

/-- `d.update(upd)` on a dict. -/
def setAll (d upd : AssocData) : AssocData :=
  upd.foldl (fun acc kv => setKey acc kv.1 kv.2) d

/-- A LangChain chat message held in the graph state. -/
inductive GMsg where
  | human (content : String)
  | ai (content : String)

/-- The `DynamicViLangGraphState` TypedDict (dynamic_langgraph_agent.py lines
47-69), restricted to the keys the modelled nodes read or write.  `Option`
models a possibly absent key, matching the `state.get(key, default)`
accesses; the `user_id` / `session_id` strings and the display-only
`oldcarts_progress` / `summary` dictionaries are not modelled because no claim
mentions them. -/
structure GState where
  messages : List GMsg
  collectedData : Option AssocData
  conversationComplete : Option Bool
  currentAgent : Option String
  nextStep : Option String
  currentField : Option String
  emergencyLevel : Option String
  completionReadiness : Option ℚ
  fieldsCollected : Option Nat
  aiContext : Option AssocData

/-- The JSON object an LLM call returned, viewed through the keys the nodes
read (each `Option` / default mirrors the node's `result.get` call), together
with `raw`, the parsed dictionary itself as stored into `ai_context`.  For the
message-generating nodes `text` is `response.content.strip()`. -/
structure LLMResponse where
  text : String := ""
  raw : AssocData := []
  nextAgent : Option String := none
  reasoning : Option String := none
  priorityField : Option String := none
  contextUpdate : AssocData := []
  extractedField : Option String := none
  extractedValue : Option Value := none
  additionalExtractions : AssocData := []
  completionReadiness : Option ℚ := none
  emergencyLevel : Option String := none
  conversationShouldComplete : Option Bool := none
  shouldContinue : Option Bool := none
  nextFieldPriority : Option String := none

/-- `initialize_session_node` (dynamic_langgraph_agent.py lines 264-299),
restricted to the modelled state keys. -/
def sessionInitNode (s : GState) : GState :=
  { s with
    collectedData := some []
    conversationComplete := some false
    currentField := some "age"
    fieldsCollected := some 0
    emergencyLevel := some "NONE"
    completionReadiness := some 0
    aiContext := some []
    currentAgent := some "orchestrator"
    nextStep := some "orchestrator" }

/-- `orchestrator_node` (dynamic_langgraph_agent.py lines 301-372): on a
parsed LLM reply, takes `next_agent` (default `"END"`) as the next step; on
any exception, falls back to the greeting agent. -/
def orchestratorNode (o : Except Unit LLMResponse) (s : GState) : GState :=
  match o with
  | .error _ =>
    { s with nextStep := some "greeting_agent", currentAgent := some "orchestrator_error" }
  | .ok r =>
    let ctx := setAll (s.aiContext.getD []) r.contextUpdate
    let ctx := setKey ctx "last_agent_action" (.str "orchestration_complete")
    let ctx := setKey ctx "orchestrator_reasoning" (.str (r.reasoning.getD ""))
    { s with
      nextStep := some (r.nextAgent.getD "END")
      currentAgent := some "orchestrator"
      currentField := some (r.priorityField.getD (s.currentField.getD "age"))
      aiContext := some ctx }

/-- `greeting_agent_node` (dynamic_langgraph_agent.py lines 374-411). -/
def greetingAgentNode (o : Except Unit LLMResponse) (s : GState) : GState :=
  match o with
  | .error _ =>
    { s with
      messages := s.messages ++
        [.ai "Hello! I\x27m Vi, your virtual health assistant. How can I help you today?"]
      nextStep := some "END" }
  | .ok r =>
    { s with
      messages := s.messages ++ [.ai r.text]
      currentAgent := some "greeting_agent"
      nextStep := some "END"
      aiContext := some (setKey (s.aiContext.getD []) "last_agent_action" (.str "greeting_sent")) }

/-- The count `len([v for v in collected_data.values() if v and v not in
["unclear_response", "skipped_by_user"]])` used by the extraction and
evaluation nodes. -/
def countFilledFields (cd : AssocData) : Nat :=
  ((cd.map (fun p => p.2)).filter (fun v =>
    pyTruthy v && !(valueEqStr v "unclear_response") &&
      !(valueEqStr v "skipped_by_user"))).length

/-- `extraction_agent_node` (dynamic_langgraph_agent.py lines 413-483),
restricted to the modelled state keys. -/
def extractionAgentNode (o : Except Unit LLMResponse) (s : GState) : GState :=
  match o with
  | .error _ => { s with nextStep := some "orchestrator" }
  | .ok r =>
    let cd := s.collectedData.getD []
    let cd :=
      match r.extractedField, r.extractedValue with
      | some f, some v => if !(f == "") && pyTruthy v then setKey cd f v else cd
      | _, _ => cd
    let cd := setAll cd r.additionalExtractions
    let ctx := setKey (s.aiContext.getD []) "last_agent_action" (.str "extraction_complete")
    let ctx := setKey ctx "last_extraction" (.dict r.raw)
    { s with
      collectedData := some cd
      fieldsCollected := some (countFilledFields cd)
      aiContext := some ctx
      currentAgent := some "extraction_agent"
      nextStep := some "orchestrator" }

/-- `evaluation_agent_node` (dynamic_langgraph_agent.py lines 485-544): stores
the reported readiness and emergency level, then routes to the emergency agent
when the parsed result reports emergency level CRITICAL or HIGH, else to the
completion or question agent; on any exception, routes to the question
agent. -/
def evaluationAgentNode (o : Except Unit LLMResponse) (s : GState) : GState :=
  match o with
  | .error _ => { s with nextStep := some "question_agent" }
  | .ok r =>
    let s := { s with
      completionReadiness := some (r.completionReadiness.getD 0)
      emergencyLevel := some (r.emergencyLevel.getD "NONE") }
    let s :=
      if r.emergencyLevel == some "CRITICAL" || r.emergencyLevel == some "HIGH" then
        { s with nextStep := some "emergency_agent" }
      else if r.conversationShouldComplete.getD false then
        { s with nextStep := some "completion_agent" }
      else if r.shouldContinue.getD true then
        { s with
          nextStep := some "question_agent"
          currentField := some (r.nextFieldPriority.getD "age") }
      else
        { s with nextStep := some "completion_agent" }
    let ctx := setKey (s.aiContext.getD []) "last_agent_action" (.str "evaluation_complete")
    let ctx := setKey ctx "evaluation_result" (.dict r.raw)
    { s with aiContext := some ctx, currentAgent := some "evaluation_agent" }

/-- `question_agent_node` (dynamic_langgraph_agent.py lines 546-587). -/
def questionAgentNode (o : Except Unit LLMResponse) (s : GState) : GState :=
  match o with
  | .error _ =>
    { s with
      messages := s.messages ++ [.ai "Could you tell me more about your symptoms?"]
      nextStep := some "END" }
  | .ok r =>
    let ctx := setKey (s.aiContext.getD []) "last_agent_action" (.str "question_asked")
    let ctx := setKey ctx "question_field" (.str (s.currentField.getD ""))
    { s with
      messages := s.messages ++ [.ai r.text]
      currentAgent := some "question_agent"
      nextStep := some "END"
      aiContext := some ctx }

/-- `completion_agent_node` (dynamic_langgraph_agent.py lines 589-631). -/
def completionAgentNode (o : Except Unit LLMResponse) (s : GState) : GState :=
  match o with
  | .error _ =>
    { s with
      messages := s.messages ++ [.ai "Thank you for sharing your information with me today."]
      conversationComplete := some true
      nextStep := some "END" }
  | .ok r =>
    let ctx := setKey (s.aiContext.getD []) "last_agent_action" (.str "conversation_completed")
    { s with
      messages := s.messages ++ [.ai r.text]
      conversationComplete := some true
      currentAgent := some "completion_agent"
      nextStep := some "END"
      aiContext := some ctx }

/-- The fallback message of the emergency agent's except branch
(dynamic_langgraph_agent.py line 671). -/
def emergencyFallbackMessage : String :=
  "Please seek immediate medical attention for your symptoms."

/-- The message the emergency agent appends for a given LLM outcome. -/
def emergencyMessageOf (o : Except Unit LLMResponse) : String :=
  match o with
  | .ok r => r.text
  | .error _ => emergencyFallbackMessage

/-- `emergency_agent_node` (dynamic_langgraph_agent.py lines 633-676): on both
the success and the exception path it appends a response message, marks the
conversation complete and sets `next_step` to END. -/
def emergencyAgentNode (o : Except Unit LLMResponse) (s : GState) : GState :=
  match o with
  | .error _ =>
    { s with
      messages := s.messages ++ [.ai emergencyFallbackMessage]
      conversationComplete := some true
      nextStep := some "END" }
  | .ok r =>
    let ctx := setKey (s.aiContext.getD []) "last_agent_action" (.str "emergency_handled")
    let ctx := setKey ctx "emergency_response" (.str r.text)
    { s with
      messages := s.messages ++ [.ai r.text]
      conversationComplete := some true
      currentAgent := some "emergency_agent"
      nextStep := some "END"
      aiContext := some ctx }

/-- `route_next_step` (dynamic_langgraph_agent.py lines 678-701): reads
`state.get("next_step", "END")` and compares it, by exact string equality,
against the seven node names; everything else maps to END. -/
def routeNextStep (s : GState) : String :=
  let nextStep := s.nextStep.getD "END"
  if nextStep == "greeting_agent" then "greeting_agent"
  else if nextStep == "extraction_agent" then "extraction_agent"
  else if nextStep == "evaluation_agent" then "evaluation_agent"
  else if nextStep == "question_agent" then "question_agent"
  else if nextStep == "completion_agent" then "completion_agent"
  else if nextStep == "emergency_agent" then "emergency_agent"
  else if nextStep == "orchestrator" then "orchestrator"
  else "END"

/-- The nodes of the compiled graph; `terminal` is LangGraph's END. -/
inductive Node where
  | start
  | orchestrator
  | greeting
  | extraction
  | evaluation
  | question
  | completion
  | emergency
  | terminal
deriving DecidableEq

/-- The conditional-edge dictionary attached to the orchestrator node
(dynamic_langgraph_agent.py lines 766-777); an unlisted route key would be a
LangGraph error, modelled as `none`. -/
def orchestratorEdges : String → Option Node
  | "greeting_agent" => some .greeting
  | "extraction_agent" => some .extraction
  | "evaluation_agent" => some .evaluation
  | "question_agent" => some .question
  | "completion_agent" => some .completion
  | "emergency_agent" => some .emergency
  | "END" => some .terminal
  | _ => none

/-- The conditional-edge dictionary attached to the evaluation node
(dynamic_langgraph_agent.py lines 786-796). -/
def evaluationEdges : String → Option Node
  | "question_agent" => some .question
  | "completion_agent" => some .completion
  | "emergency_agent" => some .emergency
  | "orchestrator" => some .orchestrator
  | "END" => some .terminal
  | _ => none

/-- The edge structure of `create_enhanced_dynamic_vi_graph`
(dynamic_langgraph_agent.py lines 749-803): the node executed after `n` left
the state `s`. -/
def nextNodeAfter : Node → GState → Option Node
  | .start, _ => some .orchestrator
  | .orchestrator, s => orchestratorEdges (routeNextStep s)
  | .greeting, _ => some .terminal
  | .extraction, _ => some .orchestrator
  | .evaluation, s => evaluationEdges (routeNextStep s)
  | .question, _ => some .terminal
  | .completion, _ => some .terminal
  | .emergency, _ => some .terminal
  | .terminal, _ => none

/-- Execute one node on the state, with `o` the outcome of its LLM call. -/
def execNode : Node → Except Unit LLMResponse → GState → GState
  | .start, _, s => sessionInitNode s
  | .orchestrator, o, s => orchestratorNode o s
  | .greeting, o, s => greetingAgentNode o s
  | .extraction, o, s => extractionAgentNode o s
  | .evaluation, o, s => evaluationAgentNode o s
  | .question, o, s => questionAgentNode o s
  | .completion, o, s => completionAgentNode o s
  | .emergency, o, s => emergencyAgentNode o s
  | .terminal, _, s => s

/-- The list of nodes a run visits, starting at `n` in state `s`, with
`oracle i` the outcome of the i-th LLM call and `fuel` a step bound. -/
def runTrace : Nat → Option Node → GState → (Nat → Except Unit LLMResponse) → List Node
  | 0, _, _, _ => []
  | _ + 1, none, _, _ => []
  | _ + 1, some .terminal, _, _ => [.terminal]
  | fuel + 1, some n, s, oracle =>
    let s' := execNode n (oracle 0) s
    n :: runTrace fuel (nextNodeAfter n s') s' (fun i => oracle (i + 1))

/-! ### Shared concrete instances and helper lemmas -/

/-- A database with no rows at all. -/
def emptyDb : Db :=
  { conversations := [], questionTracking := [], completenessChecks := [],
    timeoutEvents := [] }

/-- A graph state with no messages and every optional key absent. -/
def emptyGState : GState :=
  { messages := [], collectedData := none, conversationComplete := none,
    currentAgent := none, nextStep := none, currentField := none,
    emergencyLevel := none, completionReadiness := none, fieldsCollected := none,
    aiContext := none }

/-- The strings on which the two meaningless-response lists differ: the
symmetric difference of `cmMeaninglessResponses` and
`soapMeaninglessResponses`. -/
def placeholderSymmetricDifference : List String :=
  ["no", "yes", "ok", "fine", "normal", "regular",
   "not mentioned", "skip", "skipped", "not applicable"]

/-- Whether a value is a string whose lowercased stripped form lies in the
symmetric difference of the two placeholder lists. -/
def valueInSymmetricDifference : Value → Bool
  | .str s => placeholderSymmetricDifference.contains (pyStrip (pyLower s))
  | _ => false

/-- Outside the symmetric difference, membership in the two placeholder lists
coincides. -/
theorem mem_placeholder_agree (x : String)
    (hx : x ∉ placeholderSymmetricDifference) :
    x ∈ cmMeaninglessResponses ↔ x ∈ soapMeaninglessResponses := by
  simp only [cmMeaninglessResponses, soapMeaninglessResponses,
    placeholderSymmetricDifference, List.mem_cons, List.not_mem_nil] at hx ⊢
  tauto

/-- The seven step names `route_next_step` recognizes. -/
def agentStepNames : List String :=
  ["greeting_agent", "extraction_agent", "evaluation_agent", "question_agent",
   "completion_agent", "emergency_agent", "orchestrator"]

/-! ### C10 -/

/-- C10: for every conversation id not present in the database, each public
`CompletenessManager` operation (`evaluate_data_completeness`,
`handle_skip_request`, `handle_unclear_response`, `check_timeout_status`,
`request_human_handoff`) returns the error dictionary
`"Conversation not found"` instead of raising, and returns the stored state
unchanged. -/
theorem conversation_not_found_is_safe
    (db : Db) (cid : Nat) (data : AssocData) (now : ℚ)
    (qid reason resp : String)
    (h : db.conversations.find? (fun c => c.id == cid) = none) :
    evaluateDataCompleteness db cid data now =
      .ok (.errorDict "Conversation not found", db) ∧
    handleSkipRequest db cid qid reason now =
      (.errorDict "Conversation not found", db) ∧
    handleUnclearResponse db cid qid resp now =
      (.errorDict "Conversation not found", db) ∧
    checkTimeoutStatus db cid now =
      (.errorDict "Conversation not found", db) ∧
    requestHumanHandoff db cid reason =
      (.errorDict "Conversation not found", db) := by
  refine ⟨?_, ?_, ?_, ?_, ?_⟩ <;>
    simp [evaluateDataCompleteness, handleSkipRequest, handleUnclearResponse,
      checkTimeoutStatus, requestHumanHandoff, h]

/-- C10 witness: the unknown conversation id 1 against the empty database. -/
theorem conversation_not_found_is_safe_witness :
    evaluateDataCompleteness emptyDb 1 [] 0 =
      .ok (.errorDict "Conversation not found", emptyDb) ∧
    handleSkipRequest emptyDb 1 "q1" "user_preference" 0 =
      (.errorDict "Conversation not found", emptyDb) ∧
    handleUnclearResponse emptyDb 1 "q1" "hmm" 0 =
      (.errorDict "Conversation not found", emptyDb) ∧
    checkTimeoutStatus emptyDb 1 0 =
      (.errorDict "Conversation not found", emptyDb) ∧
    requestHumanHandoff emptyDb 1 "prefer human" =
      (.errorDict "Conversation not found", emptyDb) :=
  conversation_not_found_is_safe emptyDb 1 [] 0 "q1" "user_preference" "hmm" rfl

/-! ### C9 -/

/-- C9 counterexample: the two meaningful-data predicates are not the same
function: on the value `"no"` the CompletenessManager predicate rejects (its
placeholder list contains `"no"`) while the SOAPDataManager predicate accepts
(its list does not). -/
theorem meaningful_predicates_differ :
    cmFieldHasMeaningfulData [("smoking", .str "no")] "smoking" = false ∧
    soapFieldHasMeaningfulData [("smoking", .str "no")] "smoking" = true :=
  ⟨rfl, rfl⟩

/-- C9 amended: the two meaningful-data predicates agree on every field whose
value is not a string whose lowercased stripped form lies in the symmetric
difference of the two placeholder lists (the six strings only
CompletenessManager excludes and the four only SOAPDataManager excludes); in
particular they share the null / empty checks and the six common
placeholders. -/
theorem meaningful_predicates_agree_outside_difference
    (data : AssocData) (field : String)
    (h : ((lookup data field).map valueInSymmetricDifference).getD false = false) :
    cmFieldHasMeaningfulData data field = soapFieldHasMeaningfulData data field := by
  unfold cmFieldHasMeaningfulData soapFieldHasMeaningfulData
  cases hk : lookup data field with
  | none => rfl
  | some v =>
    cases v with
    | null => rfl
    | num q => rfl
    | bool b => rfl
    | list l => rfl
    | dict l => rfl
    | str s =>
      rw [hk] at h
      have h9 : placeholderSymmetricDifference.contains (pyStrip (pyLower s)) = false := h
      have hx : (pyStrip (pyLower s)) ∉ placeholderSymmetricDifference := by
        intro hmem
        rw [List.contains_eq_any_beq] at h9
        simp only [List.any_eq_false, beq_iff_eq] at h9
        exact h9 _ hmem rfl
      have hagree : (cmMeaninglessResponses.contains (pyStrip (pyLower s))) =
          (soapMeaninglessResponses.contains (pyStrip (pyLower s))) := by
        rw [List.contains_eq_any_beq, List.contains_eq_any_beq]
        rcases hb : soapMeaninglessResponses.any (fun x => (pyStrip (pyLower s)) == x) with _ | _
        · simp only [List.any_eq_false, beq_iff_eq] at hb ⊢
          intro x hxmem hxeq
          subst hxeq
          exact hb _ (((mem_placeholder_agree _ hx).mp) hxmem) rfl
        · simp only [List.any_eq_true, beq_iff_eq] at hb ⊢
          obtain ⟨x, hxmem, hxeq⟩ := hb
          subst hxeq
          exact ⟨_, ((mem_placeholder_agree _ hx).mpr) hxmem, rfl⟩
      change (!(s == "" || s == "null" ||
          cmMeaninglessResponses.contains (pyStrip (pyLower s)))) =
        (!(s == "" || s == "null" ||
          soapMeaninglessResponses.contains (pyStrip (pyLower s))))
      rw [hagree]

/-- C9 witness: a genuinely filled field, accepted by both predicates. -/
theorem meaningful_predicates_agree_witness :
    ((lookup [("f", Value.str "headache")] "f").map
        valueInSymmetricDifference).getD false = false ∧
    cmFieldHasMeaningfulData [("f", Value.str "headache")] "f" =
      soapFieldHasMeaningfulData [("f", Value.str "headache")] "f" :=
  ⟨rfl, meaningful_predicates_agree_outside_difference _ _ rfl⟩

/-! ### C3 -/

/-- C3 counterexample: `route_next_step` applies no string normalization:
strings naming the greeting step up to letter case or surrounding whitespace
are routed to END, not to the greeting node as the claim states. -/
theorem routeNextStep_not_normalizing :
    routeNextStep { emptyGState with nextStep := some "GREETING_AGENT" } = "END" ∧
    routeNextStep { emptyGState with nextStep := some " greeting_agent " } = "END" ∧
    routeNextStep { emptyGState with nextStep := some "Greeting_Agent" } = "END" :=
  ⟨rfl, rfl, rfl⟩

/-- C3 amended: `route_next_step` resolves the next-agent string by exact,
case- and whitespace-sensitive string equality: a string routes to a step's
node iff it is exactly one of the seven step names; every other string, and a
missing `next_step` field (which defaults to `"END"`), routes to the terminal
END node, the conditional-edge dictionaries mapping the `"END"` key to the
terminal node. -/
theorem routeNextStep_exact_match (s : GState) :
    (s.nextStep = none → routeNextStep s = "END") ∧
    (∀ name, s.nextStep = some name →
      routeNextStep s = if name ∈ agentStepNames then name else "END") ∧
    orchestratorEdges "END" = some .terminal ∧
    evaluationEdges "END" = some .terminal := by
  refine ⟨fun h => by simp [routeNextStep, h], fun name h => ?_, rfl, rfl⟩
  simp only [routeNextStep, h, Option.getD_some]
  by_cases h1 : name = "greeting_agent"
  · simp [h1, agentStepNames]
  by_cases h2 : name = "extraction_agent"
  · simp [h2, agentStepNames]
  by_cases h3 : name = "evaluation_agent"
  · simp [h3, agentStepNames]
  by_cases h4 : name = "question_agent"
  · simp [h4, agentStepNames]
  by_cases h5 : name = "completion_agent"
  · simp [h5, agentStepNames]
  by_cases h6 : name = "emergency_agent"
  · simp [h6, agentStepNames]
  by_cases h7 : name = "orchestrator"
  · simp [h7, agentStepNames]
  simp [h1, h2, h3, h4, h5, h6, h7, agentStepNames]

/-- C3 witness: the exact step name `"evaluation_agent"` routes to its own
node. -/
theorem routeNextStep_exact_match_witness :
    routeNextStep { emptyGState with nextStep := some "evaluation_agent" } =
      (if "evaluation_agent" ∈ agentStepNames then "evaluation_agent" else "END") :=
  (routeNextStep_exact_match _).2.1 "evaluation_agent" rfl

/-! ### C2 -/

/-- Translation between the source's `any(flag in detected for flag in l)`
loop and an existential over the detected list. -/
theorem any_contains_iff (l D : List String) :
    (l.any (fun f => D.contains f) = true) ↔ ∃ f ∈ D, f ∈ l := by
  constructor
  · intro h
    obtain ⟨x, hx1, hx2⟩ := List.any_eq_true.mp h
    exact ⟨x, by simpa using hx2, hx1⟩
  · rintro ⟨x, h1, h2⟩
    exact List.any_eq_true.mpr ⟨x, h2, by simpa using h1⟩

/-- C2: `check_emergency_flags` detects exactly the red-flag phrases occurring
as substrings of the lowercased message, classifies the level as critical iff
a detected flag is among the critical list, else high iff one is among the
high list, else moderate iff any flag was detected, else none;
`requires_immediate_action` holds iff the level is critical or high, and
`emergency_message` is non-null iff the level is not none. -/
theorem check_emergency_flags_spec (msg : String) (data : AssocData) :
    (∀ f, f ∈ (checkEmergencyFlags msg data).detectedFlags ↔
      (f ∈ emergencyFlags ∧ strContains (pyLower msg) f = true)) ∧
    ((checkEmergencyFlags msg data).emergencyLevel = "critical" ↔
      ∃ f ∈ (checkEmergencyFlags msg data).detectedFlags, f ∈ criticalFlags) ∧
    ((checkEmergencyFlags msg data).emergencyLevel = "high" ↔
      ((∃ f ∈ (checkEmergencyFlags msg data).detectedFlags, f ∈ highFlags) ∧
       ¬ ∃ f ∈ (checkEmergencyFlags msg data).detectedFlags, f ∈ criticalFlags)) ∧
    ((checkEmergencyFlags msg data).emergencyLevel = "moderate" ↔
      ((checkEmergencyFlags msg data).detectedFlags ≠ [] ∧
       ¬ (∃ f ∈ (checkEmergencyFlags msg data).detectedFlags, f ∈ criticalFlags) ∧
       ¬ (∃ f ∈ (checkEmergencyFlags msg data).detectedFlags, f ∈ highFlags))) ∧
    ((checkEmergencyFlags msg data).emergencyLevel = "none" ↔
      (checkEmergencyFlags msg data).detectedFlags = []) ∧
    ((checkEmergencyFlags msg data).requiresImmediateAction = true ↔
      ((checkEmergencyFlags msg data).emergencyLevel = "critical" ∨
       (checkEmergencyFlags msg data).emergencyLevel = "high")) ∧
    ((checkEmergencyFlags msg data).emergencyMessage ≠ none ↔
      (checkEmergencyFlags msg data).emergencyLevel ≠ "none") := by
  refine ⟨fun f => List.mem_filter, ?_⟩
  rcases hE : (emergencyFlags.filter (fun f => strContains (pyLower msg) f)).isEmpty
    with _ | _
  case true =>
    have hnil : emergencyFlags.filter (fun f => strContains (pyLower msg) f) = [] := by
      simpa [List.isEmpty_iff] using hE
    have hch : checkEmergencyFlags msg data =
        { emergencyLevel := "none"
          detectedFlags := emergencyFlags.filter (fun f => strContains (pyLower msg) f)
          requiresImmediateAction := false
          emergencyMessage := none } := by
      simp only [checkEmergencyFlags, generateEmergencyMessage]
      rw [hE]
      simp
    rw [hch]
    simp [hnil]
  case false =>
    have hne : emergencyFlags.filter (fun f => strContains (pyLower msg) f) ≠ [] := by
      simpa [List.isEmpty_iff] using hE
    rcases hc : criticalFlags.any
        (fun f => (emergencyFlags.filter (fun g => strContains (pyLower msg) g)).contains f)
      with _ | _
    case true =>
      have hch : checkEmergencyFlags msg data =
          { emergencyLevel := "critical"
            detectedFlags := emergencyFlags.filter (fun f => strContains (pyLower msg) f)
            requiresImmediateAction := true
            emergencyMessage := some emergencySevereMessage } := by
        simp only [checkEmergencyFlags, generateEmergencyMessage]
        rw [hE, hc]
        simp
      rw [hch]
      rw [any_contains_iff] at hc
      simp only [List.mem_filter] at hc ⊢
      simp [hne, hc]
    case false =>
      have hcn : ¬ ∃ f ∈ emergencyFlags.filter (fun g => strContains (pyLower msg) g),
          f ∈ criticalFlags := by
        rw [← any_contains_iff, hc]
        simp
      rcases hh : highFlags.any
          (fun f => (emergencyFlags.filter (fun g => strContains (pyLower msg) g)).contains f)
        with _ | _
      case true =>
        have hch : checkEmergencyFlags msg data =
            { emergencyLevel := "high"
              detectedFlags := emergencyFlags.filter (fun f => strContains (pyLower msg) f)
              requiresImmediateAction := true
              emergencyMessage := some emergencySevereMessage } := by
          simp only [checkEmergencyFlags, generateEmergencyMessage]
          rw [hE, hc, hh]
          simp
        rw [hch]
        rw [any_contains_iff] at hh
        simp only [List.mem_filter] at hcn hh ⊢
        simp [hne, hcn, hh]
      case false =>
        have hhn : ¬ ∃ f ∈ emergencyFlags.filter (fun g => strContains (pyLower msg) g),
            f ∈ highFlags := by
          rw [← any_contains_iff, hh]
          simp
        have hch : checkEmergencyFlags msg data =
            { emergencyLevel := "moderate"
              detectedFlags := emergencyFlags.filter (fun f => strContains (pyLower msg) f)
              requiresImmediateAction := false
              emergencyMessage := some emergencyModerateMessage } := by
          simp only [checkEmergencyFlags, generateEmergencyMessage]
          rw [hE, hc, hh]
          simp
        rw [hch]
        simp only [List.mem_filter] at hcn hhn ⊢
        simp [hne, hcn, hhn]

/-- C2 witness: the spec instantiated on a message containing the critical
phrase `chest pain`. -/
theorem check_emergency_flags_spec_witness :
    (checkEmergencyFlags "I have chest pain" []).emergencyLevel = "critical" ↔
      ∃ f ∈ (checkEmergencyFlags "I have chest pain" []).detectedFlags,
        f ∈ criticalFlags :=
  (check_emergency_flags_spec "I have chest pain" []).2.1

/-! ### C5 and C6 -/

/-- A sample active conversation used by the timeout witnesses. -/
def convA : Conversation :=
  { id := 1, sessionId := "s1", status := "ACTIVE", minDataThresholdMet := true,
    canBeSaved := true, dataCompletenessLevel := "MINIMAL", completionScore := 0,
    lastActivity := 0, timeoutWarnings := 0, lastTimeoutWarning := none,
    idleTimeoutMinutes := 5, sessionTimeoutMinutes := 30,
    skippedQuestions := [], unclearResponses := [],
    requestedHumanHandoff := false, handoffReason := none }

/-- A database holding just `convA`. -/
def dbA : Db :=
  { conversations := [convA], questionTracking := [], completenessChecks := [],
    timeoutEvents := [] }

/-- C5: for a known conversation, `check_timeout_status` returns exactly one
of the four results, chosen by decreasing thresholds on the idle minutes `t`:
a session timeout when `t >= session_timeout_minutes`, otherwise an idle
warning when `t >= idle_timeout_minutes`, otherwise the approaching-timeout
nudge when `t >= 0.7 * idle_timeout_minutes`, otherwise the status `"active"`
(with `no_timeout` true and the database untouched). -/
theorem check_timeout_status_classification
    (db : Db) (cid : Nat) (now : ℚ) (conv : Conversation)
    (h : db.conversations.find? (fun c => c.id == cid) = some conv) :
    ((checkTimeoutStatus db cid now).1.statusString =
      (if (now - conv.lastActivity) / 60 ≥ conv.sessionTimeoutMinutes then "timeout"
       else if (now - conv.lastActivity) / 60 ≥ conv.idleTimeoutMinutes then "idle_warning"
       else if (now - conv.lastActivity) / 60 ≥ conv.idleTimeoutMinutes * (7 / 10 : ℚ) then
         "approaching_timeout"
       else "active")) ∧
    (¬ ((now - conv.lastActivity) / 60 ≥ conv.sessionTimeoutMinutes) →
     ¬ ((now - conv.lastActivity) / 60 ≥ conv.idleTimeoutMinutes) →
     ¬ ((now - conv.lastActivity) / 60 ≥ conv.idleTimeoutMinutes * (7 / 10 : ℚ)) →
       checkTimeoutStatus db cid now = (.active, db)) := by
  simp only [checkTimeoutStatus, h]
  constructor
  · split_ifs with h1 h2 h3 <;>
      simp [handleSessionTimeout, handleIdleTimeout, handleApproachingTimeout,
        TimeoutResult.statusString]
  · intro h1 h2 h3
    rw [if_neg h1, if_neg h2, if_neg h3]

/-- C5 witness: `convA` probed immediately after its last activity is
classified as active. -/
theorem check_timeout_status_classification_witness :
    dbA.conversations.find? (fun c => c.id == (1 : Nat)) = some convA ∧
    (((checkTimeoutStatus dbA 1 0).1.statusString =
      (if ((0 : ℚ) - convA.lastActivity) / 60 ≥ convA.sessionTimeoutMinutes then "timeout"
       else if ((0 : ℚ) - convA.lastActivity) / 60 ≥ convA.idleTimeoutMinutes then "idle_warning"
       else if ((0 : ℚ) - convA.lastActivity) / 60 ≥ convA.idleTimeoutMinutes * (7 / 10 : ℚ) then
         "approaching_timeout"
       else "active")) ∧
    (¬ (((0 : ℚ) - convA.lastActivity) / 60 ≥ convA.sessionTimeoutMinutes) →
     ¬ (((0 : ℚ) - convA.lastActivity) / 60 ≥ convA.idleTimeoutMinutes) →
     ¬ (((0 : ℚ) - convA.lastActivity) / 60 ≥ convA.idleTimeoutMinutes * (7 / 10 : ℚ)) →
       checkTimeoutStatus dbA 1 0 = (.active, dbA))) :=
  ⟨rfl, check_timeout_status_classification dbA 1 0 convA rfl⟩

/-- C6: when a full session timeout fires (idle minutes at least
`session_timeout_minutes`), a `TimeoutEvent` row with event type `"timeout"`
is appended, and the persist-or-discard decision follows
`min_data_threshold_met`: when the flag holds the conversation status becomes
PAUSED and the result reports `can_resume = session_saved = true`; otherwise
the status becomes TIMEOUT and both report false. -/
theorem session_timeout_persists_or_discards
    (db : Db) (cid : Nat) (now : ℚ) (conv : Conversation)
    (h : db.conversations.find? (fun c => c.id == cid) = some conv)
    (ht : (now - conv.lastActivity) / 60 ≥ conv.sessionTimeoutMinutes) :
    checkTimeoutStatus db cid now =
      (TimeoutResult.sessionTimeout
         (if conv.minDataThresholdMet then sessionPausedMessage else sessionLostMessage)
         conv.minDataThresholdMet conv.minDataThresholdMet,
       { db with
         timeoutEvents := db.timeoutEvents ++
           [{ conversationId := conv.id
              eventType := "timeout"
              timeoutDuration := pyInt (now - conv.lastActivity)
              warningMessage := some "Session timed out due to inactivity" }]
         conversations :=
           updateFirst (fun c => c.id == conv.id)
             (fun c => { c with status :=
               if conv.minDataThresholdMet then "PAUSED" else "TIMEOUT" })
             db.conversations }) := by
  simp only [checkTimeoutStatus, h]
  rw [if_pos ht]
  rfl

/-- C6 witness: `convA`, whose minimum-data flag holds, probed 1800 seconds
(30 idle minutes) after its last activity. -/
theorem session_timeout_persists_or_discards_witness :
    dbA.conversations.find? (fun c => c.id == (1 : Nat)) = some convA ∧
    (((1800 : ℚ) - convA.lastActivity) / 60 ≥ convA.sessionTimeoutMinutes) ∧
    checkTimeoutStatus dbA 1 1800 =
      (TimeoutResult.sessionTimeout
         (if convA.minDataThresholdMet then sessionPausedMessage else sessionLostMessage)
         convA.minDataThresholdMet convA.minDataThresholdMet,
       { dbA with
         timeoutEvents := dbA.timeoutEvents ++
           [{ conversationId := convA.id
              eventType := "timeout"
              timeoutDuration := pyInt ((1800 : ℚ) - convA.lastActivity)
              warningMessage := some "Session timed out due to inactivity" }]
         conversations :=
           updateFirst (fun c => c.id == convA.id)
             (fun c => { c with status :=
               if convA.minDataThresholdMet then "PAUSED" else "TIMEOUT" })
             dbA.conversations }) :=
  ⟨rfl, by norm_num [convA],
   session_timeout_persists_or_discards dbA 1 1800 convA rfl (by norm_num [convA])⟩

/-! ### C1 -/

/-- Collected data filling the first `n` required fields with a meaningful
string. -/
def dataWithFields (n : Nat) : AssocData :=
  (allRequiredFields.take n).map (fun f => (f, Value.str "detail"))

/-- C1 (code bug): the field counting works as claimed, but the tier mapping
crashes on the middle tiers: with exactly 15 (respectively 8) meaningful
fields, `evaluate_data_completeness` reaches
`DataCompletenessLevel.SUBSTANTIAL` (respectively `.PARTIAL`), members the
enum in config/models.py does not define, so the Python call raises
`AttributeError` instead of returning the claimed SUBSTANTIAL / PARTIAL
tier. -/
theorem evaluate_data_completeness_missing_enum_members :
    totalFieldsCollected (dataWithFields 15) = 15 ∧
    evaluateDataCompleteness dbA 1 (dataWithFields 15) 0 =
      .error "AttributeError: DataCompletenessLevel has no member SUBSTANTIAL" ∧
    totalFieldsCollected (dataWithFields 8) = 8 ∧
    evaluateDataCompleteness dbA 1 (dataWithFields 8) 0 =
      .error "AttributeError: DataCompletenessLevel has no member PARTIAL" :=
  ⟨rfl, rfl, rfl, rfl⟩

/-! ### C4 -/

/-- `sortStrings` sorts with respect to the string order. -/
theorem sortStrings_sorted (l : List String) :
    List.Sorted (fun a b : String => a ≤ b) (sortStrings l) := by
  have h := @List.sorted_mergeSort String (fun a b : String => decide (a ≤ b))
    (fun a b c hab hbc => by
      simp only [decide_eq_true_eq] at *
      exact le_trans hab hbc)
    (fun a b => by
      simp only [Bool.or_eq_true, decide_eq_true_eq]
      exact le_total a b)
    l
  exact h.imp (fun hab => by simpa using hab)

/-- `sortStrings` permutes its input. -/
theorem sortStrings_perm (l : List String) : (sortStrings l).Perm l :=
  List.mergeSort_perm l _

/-- C4: the question-intent hash is invariant under its own normalization:
whenever two question texts have the same multiset of meaningful words
(lowercased, whitespace-split, stop words dropped), `_hash_question_intent`
returns the same hash; in particular the hash is unchanged by letter case,
word order, and insertion or removal of stop words. -/
theorem hash_question_intent_invariant (t1 t2 : String)
    (h : (intentWords t1).Perm (intentWords t2)) :
    hashQuestionIntent t1 = hashQuestionIntent t2 := by
  have hsort : sortStrings (intentWords t1) = sortStrings (intentWords t2) :=
    List.eq_of_perm_of_sorted
      (((sortStrings_perm _).trans h).trans (sortStrings_perm _).symm)
      (sortStrings_sorted _) (sortStrings_sorted _)
  unfold hashQuestionIntent intentString
  rw [hsort]

/-- C4 witness: reordering the meaningful words, changing case and inserting
the stop words `tell me` leaves the hash unchanged. -/
theorem hash_question_intent_invariant_witness :
    (intentWords "What brings you in today").Perm
      (intentWords "Tell me today IN brings") ∧
    hashQuestionIntent "What brings you in today" =
      hashQuestionIntent "Tell me today IN brings" :=
  ⟨by decide, hash_question_intent_invariant _ _ (by decide)⟩

/-! ### C7 -/

/-- Updating one list element with a function that preserves the predicate
`q` leaves the number of `q`-matching elements unchanged. -/
theorem length_filter_updateFirst (p q : α → Bool) (f : α → α)
    (hf : ∀ a, q (f a) = q a) :
    ∀ l : List α, ((updateFirst p f l).filter q).length = (l.filter q).length := by
  intro l
  induction l with
  | nil => rfl
  | cons x xs ih =>
    by_cases hp : p x = true
    · rw [updateFirst, if_pos hp]
      rcases hq : q x with _ | _ <;> simp [List.filter_cons, hf x, hq]
    · rw [updateFirst, if_neg hp]
      rcases hq : q x with _ | _ <;> simp [List.filter_cons, hq, ih]

/-- C7: `track_question_asked` preserves the at-most-one-record-per-hash
invariant, and behaves as claimed: a question whose intent hash is already
tracked for the conversation creates no second record but increments the
existing record's attempt count, reporting `already_asked = true` with
`should_rephrase` iff the updated count exceeds 1 and `alternative_needed`
iff it exceeds 2; a fresh hash appends exactly one new record with attempt
count 1, reporting `already_asked = false`. -/
theorem track_question_asked_unique
    (db : Db) (sid qtext cat : String) (qid : Option String) (now : ℚ)
    (timeStr : String) (hInv : UniqueHashInvariant db) :
    UniqueHashInvariant (trackQuestionAsked db sid qtext cat qid now timeStr).2 ∧
    (∀ conv, db.conversations.find? (fun c => c.sessionId == sid) = some conv →
      (∀ r, db.questionTracking.find?
          (fun q => q.conversationId == conv.id &&
            q.questionHash == hashQuestionIntent qtext) = some r →
        (trackQuestionAsked db sid qtext cat qid now timeStr).1 =
          .ok (.duplicate r.questionId (r.attemptCount + 1)
            (decide (r.attemptCount + 1 > 1)) (decide (r.attemptCount + 1 > 2))) ∧
        ((trackQuestionAsked db sid qtext cat qid now timeStr).2).questionTracking.length =
          db.questionTracking.length) ∧
      (db.questionTracking.find?
          (fun q => q.conversationId == conv.id &&
            q.questionHash == hashQuestionIntent qtext) = none →
        (trackQuestionAsked db sid qtext cat qid now timeStr).1 =
          .ok (.fresh (pyOrString qid ("q_" ++ cat ++ "_" ++ timeStr))) ∧
        ∃ rec, ((trackQuestionAsked db sid qtext cat qid now timeStr).2).questionTracking =
            db.questionTracking ++ [rec] ∧
          rec.attemptCount = 1 ∧
          rec.questionHash = hashQuestionIntent qtext ∧
          rec.conversationId = conv.id)) := by
  cases hconv : db.conversations.find? (fun c => c.sessionId == sid) with
  | none =>
    constructor
    · simpa only [trackQuestionAsked, hconv] using hInv
    · intro conv hc
      cases hc
  | some conv =>
    cases hex : db.questionTracking.find?
        (fun q => q.conversationId == conv.id &&
          q.questionHash == hashQuestionIntent qtext) with
    | some r =>
      refine ⟨?_, ?_⟩
      · intro cid h
        have hqt : (trackQuestionAsked db sid qtext cat qid now timeStr).2.questionTracking =
            updateFirst
              (fun q => q.conversationId == conv.id &&
                q.questionHash == hashQuestionIntent qtext)
              (fun q => { q with attemptCount := q.attemptCount + 1,
                                 lastAskedAt := some now })
              db.questionTracking := by
          simp only [trackQuestionAsked, hconv, hex]
        rw [hqt, length_filter_updateFirst
          (fun q : QuestionTracking => q.conversationId == conv.id &&
            q.questionHash == hashQuestionIntent qtext)
          (fun q : QuestionTracking => q.conversationId == cid && q.questionHash == h)
          (fun q : QuestionTracking => { q with attemptCount := q.attemptCount + 1,
                                                lastAskedAt := some now })
          (fun a => rfl)]
        exact hInv cid h
      · intro conv2 hc2
        cases hc2
        refine ⟨fun r2 hr2 => ?_, fun hnone => ?_⟩
        · rw [hex] at hr2
          cases hr2
          constructor
          · simp only [trackQuestionAsked, hconv, hex]
          · have hqt : (trackQuestionAsked db sid qtext cat qid now timeStr).2.questionTracking =
                updateFirst
                  (fun q => q.conversationId == conv.id &&
                    q.questionHash == hashQuestionIntent qtext)
                  (fun q => { q with attemptCount := q.attemptCount + 1,
                                     lastAskedAt := some now })
                  db.questionTracking := by
              simp only [trackQuestionAsked, hconv, hex]
            rw [hqt]
            have := length_filter_updateFirst
              (fun q => q.conversationId == conv.id &&
                q.questionHash == hashQuestionIntent qtext)
              (fun _ => true)
              (fun q => { q with attemptCount := q.attemptCount + 1,
                                 lastAskedAt := some now })
              (fun a => rfl) db.questionTracking
            simpa using this
        · rw [hex] at hnone
          cases hnone
    | none =>
      refine ⟨?_, ?_⟩
      · intro cid h
        have hqt : (trackQuestionAsked db sid qtext cat qid now timeStr).2.questionTracking =
            db.questionTracking ++
              [{ conversationId := conv.id
                 questionId := pyOrString qid ("q_" ++ cat ++ "_" ++ timeStr)
                 questionText := qtext
                 questionHash := hashQuestionIntent qtext
                 questionCategory := cat
                 status := "asked"
                 attemptCount := 1
                 responseClarity := none
                 needsFollowup := false
                 skipReason := none
                 createdAt := now
                 lastAskedAt := some now
                 answeredAt := none }] := by
          simp only [trackQuestionAsked, hconv, hex]
        rw [hqt, List.filter_append, List.length_append]
        by_cases hkey : cid = conv.id ∧ h = hashQuestionIntent qtext
        · obtain ⟨hkey1, hkey2⟩ := hkey
          subst hkey1
          subst hkey2
          have hzero : db.questionTracking.filter
              (fun q => q.conversationId == conv.id &&
                q.questionHash == hashQuestionIntent qtext) = [] := by
            rw [List.filter_eq_nil_iff]
            intro a ha
            exact List.find?_eq_none.mp hex a ha
          rw [hzero]
          simp
        · have hone : List.filter
              (fun q : QuestionTracking => q.conversationId == cid && q.questionHash == h)
              [{ conversationId := conv.id
                 questionId := pyOrString qid ("q_" ++ cat ++ "_" ++ timeStr)
                 questionText := qtext
                 questionHash := hashQuestionIntent qtext
                 questionCategory := cat
                 status := "asked"
                 attemptCount := 1
                 responseClarity := none
                 needsFollowup := false
                 skipReason := none
                 createdAt := now
                 lastAskedAt := some now
                 answeredAt := none }] = [] := by
            rw [List.filter_eq_nil_iff]
            intro a ha
            simp only [List.mem_singleton] at ha
            subst ha
            simp only [Bool.and_eq_true, beq_iff_eq, not_and]
            intro h1 h2
            exact hkey ⟨h1.symm, h2.symm⟩
          rw [hone]
          simpa using hInv cid h
      · intro conv2 hc2
        cases hc2
        refine ⟨fun r2 hr2 => ?_, fun _ => ?_⟩
        · rw [hex] at hr2
          cases hr2
        · constructor
          · simp only [trackQuestionAsked, hconv, hex]
          · exact ⟨{ conversationId := conv.id
                     questionId := pyOrString qid ("q_" ++ cat ++ "_" ++ timeStr)
                     questionText := qtext
                     questionHash := hashQuestionIntent qtext
                     questionCategory := cat
                     status := "asked"
                     attemptCount := 1
                     responseClarity := none
                     needsFollowup := false
                     skipReason := none
                     createdAt := now
                     lastAskedAt := some now
                     answeredAt := none },
                   by simp only [trackQuestionAsked, hconv, hex], rfl, rfl, rfl⟩

/-- C7 witness: tracking a question against a database satisfying the
invariant. -/
theorem track_question_asked_unique_witness :
    UniqueHashInvariant
      (trackQuestionAsked dbA "s1" "When did the pain start" "onset" none 0 "120000").2 :=
  (track_question_asked_unique dbA "s1" "When did the pain start" "onset" none 0 "120000"
    (fun cid h => by simp [dbA, UniqueHashInvariant])).1

/-! ### C8 -/

/-- C8: in every run of the graph, when the evaluation step's parsed result
reports emergency level CRITICAL or HIGH, the node executed next is the
emergency agent, which appends its response message and marks the
conversation complete, after which the graph reaches END; the remainder of
the run is exactly `[emergency, END]`, so no question node (and hence no
further question) ever executes in that run. -/
theorem evaluation_emergency_reaches_end
    (s : GState) (r : LLMResponse) (oracle : Nat → Except Unit LLMResponse)
    (fuel : Nat)
    (hlev : r.emergencyLevel = some "CRITICAL" ∨ r.emergencyLevel = some "HIGH") :
    nextNodeAfter .evaluation (evaluationAgentNode (.ok r) s) = some .emergency ∧
    (execNode .emergency (oracle 0) (evaluationAgentNode (.ok r) s)).messages =
      (evaluationAgentNode (.ok r) s).messages ++ [.ai (emergencyMessageOf (oracle 0))] ∧
    (execNode .emergency (oracle 0)
      (evaluationAgentNode (.ok r) s)).conversationComplete = some true ∧
    runTrace (fuel + 2) (nextNodeAfter .evaluation (evaluationAgentNode (.ok r) s))
        (evaluationAgentNode (.ok r) s) oracle = [.emergency, .terminal] ∧
    Node.question ∉
      runTrace (fuel + 2) (nextNodeAfter .evaluation (evaluationAgentNode (.ok r) s))
        (evaluationAgentNode (.ok r) s) oracle := by
  have hcond : (r.emergencyLevel == some "CRITICAL" ||
      r.emergencyLevel == some "HIGH") = true := by
    rcases hlev with hlev | hlev <;> simp [hlev]
  have hstep : (evaluationAgentNode (.ok r) s).nextStep = some "emergency_agent" := by
    simp only [evaluationAgentNode]
    rw [if_pos hcond]
  have hnext : nextNodeAfter .evaluation (evaluationAgentNode (.ok r) s) =
      some .emergency := by
    simp [nextNodeAfter, routeNextStep, hstep, evaluationEdges]
  have hmsg : ∀ o s1, (execNode .emergency o s1).messages =
      s1.messages ++ [.ai (emergencyMessageOf o)] := by
    intro o s1
    cases o <;> simp [execNode, emergencyAgentNode, emergencyMessageOf]
  have hdone : ∀ o s1, (execNode .emergency o s1).conversationComplete = some true := by
    intro o s1
    cases o <;> simp [execNode, emergencyAgentNode]
  have htrace : runTrace (fuel + 2)
      (nextNodeAfter .evaluation (evaluationAgentNode (.ok r) s))
      (evaluationAgentNode (.ok r) s) oracle = [.emergency, .terminal] := by
    rw [hnext]
    have h1 : runTrace (fuel + 2) (some .emergency) (evaluationAgentNode (.ok r) s) oracle =
        .emergency :: runTrace (fuel + 1)
          (nextNodeAfter .emergency
            (execNode .emergency (oracle 0) (evaluationAgentNode (.ok r) s)))
          (execNode .emergency (oracle 0) (evaluationAgentNode (.ok r) s))
          (fun i => oracle (i + 1)) := rfl
    rw [h1]
    have hterm : nextNodeAfter .emergency
        (execNode .emergency (oracle 0) (evaluationAgentNode (.ok r) s)) =
          some .terminal := rfl
    rw [hterm]
    rfl
  refine ⟨hnext, hmsg _ _, hdone _ _, htrace, ?_⟩
  rw [htrace]
  simp

/-- C8 witness: a parsed evaluation result reporting CRITICAL, with every
later LLM call failing, still reaches the emergency agent and END. -/
theorem evaluation_emergency_reaches_end_witness :
    nextNodeAfter .evaluation
      (evaluationAgentNode (.ok { emergencyLevel := some "CRITICAL" }) emptyGState) =
        some .emergency ∧
    (execNode .emergency ((fun _ => .error ()) (0 : Nat))
      (evaluationAgentNode (.ok { emergencyLevel := some "CRITICAL" }) emptyGState)).messages =
      (evaluationAgentNode (.ok { emergencyLevel := some "CRITICAL" }) emptyGState).messages ++
        [.ai (emergencyMessageOf ((fun _ => .error ()) (0 : Nat)))] ∧
    (execNode .emergency ((fun _ => .error ()) (0 : Nat))
      (evaluationAgentNode (.ok { emergencyLevel := some "CRITICAL" })
        emptyGState)).conversationComplete = some true ∧
    runTrace (0 + 2)
        (nextNodeAfter .evaluation
          (evaluationAgentNode (.ok { emergencyLevel := some "CRITICAL" }) emptyGState))
        (evaluationAgentNode (.ok { emergencyLevel := some "CRITICAL" }) emptyGState)
        (fun _ => .error ()) = [.emergency, .terminal] ∧
    Node.question ∉
      runTrace (0 + 2)
        (nextNodeAfter .evaluation
          (evaluationAgentNode (.ok { emergencyLevel := some "CRITICAL" }) emptyGState))
        (evaluationAgentNode (.ok { emergencyLevel := some "CRITICAL" }) emptyGState)
        (fun _ => .error ()) :=
  evaluation_emergency_reaches_end emptyGState { emergencyLevel := some "CRITICAL" }
    (fun _ => .error ()) 0 (Or.inl rfl)

end AiClinic
